import Mathlib

/-
  Verification development for the pai-server conversation pipeline.

  Shallow embedding of:
    - app/domain/services/command_parser.py   (CommandParser, ParsedCommand)
    - app/application/use_cases/conversation_use_cases.py
      (send_message, send_message_stream, _handle_command, generate_title)
    - app/application/use_cases/task_use_cases.py (create_task, _model_to_dict)
    - app/infrastructure/repositories/conversation_repository.py
    - app/infrastructure/repositories/person_repository.py (find_person_by_name)
    - app/infrastructure/repositories/task_repository.py (create_task)

  External capabilities (the Claude LLM service, the calendar adapter, the
  stdlib json.loads / datetime.fromisoformat boundary) are modelled as an
  explicit environment of fallible functions returning Except.

  Python strings are modelled through their code-point sequences (List Char);
  every Python string operation used by the source gets a dedicated py*
  function below.  The regular expressions of _extract_task_params are
  implemented as specialised matchers with Python re semantics (leftmost
  match, greedy / lazy quantifiers, IGNORECASE where the source passes it);
  the character class \w is modelled by its ASCII part, which covers every
  keyword and example in the repository.
-/

set_option maxRecDepth 8000

/-! ## Python string primitives -/

/-- Python `str` whitespace (ASCII part): the characters stripped by
`str.strip()` and matched by `\s`. -/
def pyIsSpace (c : Char) : Bool :=
  c == ' ' || c == '\t' || c == '\n' || c == '\r' || c == '\x0b' || c == '\x0c'

def stripLeft (l : List Char) : List Char := l.dropWhile pyIsSpace

def stripList (l : List Char) : List Char :=
  ((l.dropWhile pyIsSpace).reverse.dropWhile pyIsSpace).reverse

/-- Python `s.strip()`. -/
def pyStrip (s : String) : String := ⟨stripList s.data⟩

/-- Python `s.strip(c)` for a single character argument: removes every
leading and trailing occurrence of `c`. -/
def pyStripChar (s : String) (c : Char) : String :=
  ⟨((s.data.dropWhile (· == c)).reverse.dropWhile (· == c)).reverse⟩

/-- Python `s[:n]` (slicing by code points). -/
def pyTake (s : String) (n : Nat) : String := ⟨s.data.take n⟩

/-- Python `len(s)` (code points). -/
def pyLen (s : String) : Nat := s.data.length

/-- ASCII lowering, the fragment of Python `str.lower()` exercised by the
keyword table (all keywords are ASCII). -/
def lowerChar (c : Char) : Char :=
  if 'A' ≤ c && c ≤ 'Z' then Char.ofNat (c.toNat + 32) else c

def lowerList (l : List Char) : List Char := l.map lowerChar

def pyLower (s : String) : String := ⟨lowerList s.data⟩

/-- Python `s.startswith(p)`. -/
def pyStartsWith (s p : String) : Bool := p.data.isPrefixOf s.data

/-- Python `needle in hay` (substring containment). -/
def containsSub (needle : List Char) : List Char → Bool
  | [] => needle.isEmpty
  | c :: rest => needle.isPrefixOf (c :: rest) || containsSub needle rest

def strContains (hay needle : String) : Bool := containsSub needle.data hay.data

/-- Python `text.split(maxsplit=1)`: first whitespace-delimited token and the
remainder after the separating whitespace run. -/
def pySplitMax (l : List Char) : List Char × List Char :=
  let l' := l.dropWhile pyIsSpace
  let tok := l'.takeWhile (fun c => !pyIsSpace c)
  let rest := (l'.dropWhile (fun c => !pyIsSpace c)).dropWhile pyIsSpace
  (tok, rest)

/-- Python `s.split(sep)` for a one-character separator. -/
def splitOnChar (sep : Char) (l : List Char) : List (List Char) :=
  match l with
  | [] => [[]]
  | c :: rest =>
    let r := splitOnChar sep rest
    if c == sep then [] :: r
    else match r with
      | [] => [[c]]
      | x :: xs => (c :: x) :: xs

/-- Python `s.replace(old, new)` (fuel-indexed scan; the fuel is always the
length of the subject, enough because a nonempty `old` consumes at least one
character per step). -/
def replaceFuel (old new : List Char) : Nat → List Char → List Char
  | 0, l => l
  | _ + 1, [] => []
  | f + 1, c :: rest =>
    if old.isPrefixOf (c :: rest) && !old.isEmpty then
      new ++ replaceFuel old new f ((c :: rest).drop old.length)
    else
      c :: replaceFuel old new f rest

def pyReplace (s old new : String) : String :=
  ⟨replaceFuel old.data new.data (s.data.length + 1) s.data⟩

/-! ## Command grammar data model (`command_parser.py`) -/

inductive CommandType where
  | CALENDAR | REMINDER | TASK | NOTE | SCAN | HELP | UNKNOWN
deriving DecidableEq, Repr

/-- The Python enum value string of a `CommandType`. -/
def CommandType.value : CommandType → String
  | .CALENDAR => "calendar"
  | .REMINDER => "reminder"
  | .TASK => "task"
  | .NOTE => "note"
  | .SCAN => "scan"
  | .HELP => "help"
  | .UNKNOWN => "unknown"

/-- Values stored in the `parameters` dict of a `ParsedCommand`. -/
inductive PValue where
  | pstr (s : String)
  | plist (l : List String)
  | pcmd (t : CommandType)
  | pnone
deriving DecidableEq, Repr

/-- The `parameters` dict, as an insertion-ordered association list
(Python dicts preserve insertion order). -/
def Params := List (String × PValue)
deriving DecidableEq, Repr

/-- Python `d.get(k)` (None when absent). -/
def Params.get (ps : Params) (k : String) : Option PValue :=
  (List.find? (fun p => p.1 == k) ps).map (·.2)

/-- Python `d.update(u)`: existing keys keep their position and take the new
value, fresh keys are appended in order. -/
def Params.update (base upd : Params) : Params :=
  (base.map fun p =>
    match List.find? (fun q => q.1 == p.1) upd with
    | some q => (p.1, q.2)
    | none => p) ++
  upd.filter (fun q => (List.find? (fun p => p.1 == q.1) base).isNone)

structure ParsedCommand where
  commandType : CommandType
  originalText : String
  commandText : String
  parameters : Params
deriving DecidableEq, Repr

/-- `ParsedCommand.is_command`. -/
def ParsedCommand.isCommand (c : ParsedCommand) : Bool :=
  c.commandType != CommandType.UNKNOWN

/-- The static help texts of `ParsedCommand.get_help_text`. -/
def helpTextFor : CommandType → Option String
  | .CALENDAR => some ("📅 Calendar commando\x27s:\n\n" ++
      "#calendar afspraak maken - Maak nieuwe afspraak\n" ++
      "#calendar lijst - Toon komende afspraken\n" ++
      "#calendar vandaag - Afspraken vandaag\n" ++
      "#calendar morgen - Afspraken morgen\n\n" ++
      "Voorbeelden:\n" ++
      "- #calendar afspraak maken om 14:00 met Jan\n" ++
      "- #calendar lijst deze week\n" ++
      "- #calendar verwijder afspraak <id>\n")
  | .REMINDER => some ("⏰ Reminder commando\x27s:\n\n" ++
      "#reminder - Maak een snelle herinnering\n\n" ++
      "Voorbeelden:\n" ++
      "- #reminder Supermarkt om 20:00 vanavond\n" ++
      "- #reminder Tandarts morgen 10:00\n" ++
      "- #reminder Bel moeder vrijdag 15:00\n")
  | .TASK => some ("✅ Taak commando\x27s:\n\n" ++
      "#task of #taak - Maak een nieuwe taak\n\n" ++
      "Voorbeelden:\n" ++
      "- #task Rapport maken deadline volgende week\n" ++
      "- #taak Website updaten @Maria priority high\n" ++
      "- #task Boodschappen doen deadline vrijdag\n" ++
      "- #taak Factuur nakijken @Jan tags urgent,admin\n\n" ++
      "Gebruik @persoon om een taak te delegeren\n")
  | .NOTE => some ("📝 Notitie commando\x27s:\n\n" ++
      "#note maken - Nieuwe notitie\n" ++
      "#note lijst - Toon notities\n" ++
      "#note zoek <term> - Zoek in notities\n\n" ++
      "Voorbeelden:\n" ++
      "- #note maken: boodschappen melk brood eieren\n" ++
      "- #note lijst vandaag\n" ++
      "- #note zoek vergadering\n")
  | .SCAN => some ("📸 Scan commando\x27s:\n\n" ++
      "#scan document - Scan en verwerk document\n" ++
      "#scan foto - Scan foto/afbeelding\n" ++
      "#scan bon - Scan kassabon\n\n" ++
      "Voorbeelden:\n" ++
      "- #scan document contract.pdf\n" ++
      "- #scan bon voor declaratie\n")
  | .HELP => some ("❓ Beschikbare commando\x27s:\n\n" ++
      "📅 #calendar - Agenda beheer\n" ++
      "⏰ #reminder - Snelle herinneringen\n" ++
      "✅ #task/#taak - Taken beheer\n" ++
      "📝 #note - Notities maken\n" ++
      "📸 #scan - Documenten scannen\n" ++
      "❓ #help - Deze help tekst\n\n" ++
      "Gebruik #help <commando> voor meer info over een specifiek commando.\n" ++
      "Bijvoorbeeld: #help calendar of #help task\n")
  | .UNKNOWN => none

def unknownCommandMsg : String :=
  "Onbekend commando. Typ #help voor beschikbare commando\x27s."

/-- `ParsedCommand.get_help_text`: dict lookup with a generic fallback. -/
def ParsedCommand.getHelpText (c : ParsedCommand) : String :=
  match helpTextFor c.commandType with
  | some t => t
  | none => unknownCommandMsg

/-- `CommandParser.COMMAND_KEYWORDS`, in source (insertion) order. -/
def commandKeywords : List (String × CommandType) :=
  [("calendar", .CALENDAR), ("agenda", .CALENDAR), ("cal", .CALENDAR),
   ("reminder", .REMINDER), ("herinnering", .REMINDER),
   ("task", .TASK), ("taak", .TASK), ("todo", .TASK),
   ("note", .NOTE), ("notitie", .NOTE),
   ("scan", .SCAN),
   ("help", .HELP), ("hulp", .HELP)]

/-! ## The regular expressions of `_extract_task_params`

Each Python `re` call of the source is implemented as a dedicated matcher
with `re` semantics: the subject is scanned left to right for the leftmost
match, `+` is greedy, `+?` is lazy, `.` matches anything except a newline,
`$` matches at the end of the subject or just before a final newline, and
the IGNORECASE variants compare letters through `lowerChar`.  `\w` is
modelled by its ASCII fragment. -/

/-- `\w` (ASCII fragment). -/
def wordChar (c : Char) : Bool :=
  ('a' ≤ c && c ≤ 'z') || ('A' ≤ c && c ≤ 'Z') || ('0' ≤ c && c ≤ '9') || c == '_'

/-- Case-insensitive literal prefix test: `pat` is given lowercase. -/
def ciPrefix (pat l : List Char) : Bool :=
  pat.isPrefixOf ((l.take pat.length).map lowerChar)

/-- `re.search(r'@(\w+)', text)`: the first capture group. -/
def searchMention : List Char → Option (List Char)
  | [] => none
  | '@' :: rest =>
    let g := rest.takeWhile wordChar
    if g.isEmpty then searchMention rest else some g
  | _ :: rest => searchMention rest

/-- `re.sub(r'@\w+', '', text)` (fuel = subject length, one step per
position). -/
def subMentionFuel : Nat → List Char → List Char
  | 0, l => l
  | _ + 1, [] => []
  | f + 1, '@' :: rest =>
    let g := rest.takeWhile wordChar
    if g.isEmpty then '@' :: subMentionFuel f rest
    else subMentionFuel f (rest.drop g.length)
  | f + 1, c :: rest => c :: subMentionFuel f rest

def subMention (l : List Char) : List Char := subMentionFuel (l.length + 1) l

/-- Match `priority\s+(low|medium|high)` anchored at the head of `l`
(already lowercased subject); returns the group. -/
def matchPriorityAt (l : List Char) : Option String :=
  if "priority".data.isPrefixOf l then
    let r := l.drop 8
    let ws := r.takeWhile pyIsSpace
    if ws.isEmpty then none
    else
      let r2 := r.drop ws.length
      if "low".data.isPrefixOf r2 then some "low"
      else if "medium".data.isPrefixOf r2 then some "medium"
      else if "high".data.isPrefixOf r2 then some "high"
      else none
  else none

/-- `re.search(r'priority\s+(low|medium|high)', text)` on a lowercased
subject. -/
def searchPriority : List Char → Option String
  | [] => none
  | c :: rest =>
    match matchPriorityAt (c :: rest) with
    | some g => some g
    | none => searchPriority rest

/-- Anchored IGNORECASE match of `priority\s+(low|medium|high)`; returns the
number of characters consumed. -/
def matchPriorityLen (l : List Char) : Option Nat :=
  if ciPrefix "priority".data l then
    let r := l.drop 8
    let ws := r.takeWhile pyIsSpace
    if ws.isEmpty then none
    else
      let r2 := r.drop ws.length
      if ciPrefix "low".data r2 then some (8 + ws.length + 3)
      else if ciPrefix "medium".data r2 then some (8 + ws.length + 6)
      else if ciPrefix "high".data r2 then some (8 + ws.length + 4)
      else none
  else none

/-- `re.sub(r'priority\s+(low|medium|high)', '', text, flags=re.IGNORECASE)`. -/
def subPriorityFuel : Nat → List Char → List Char
  | 0, l => l
  | _ + 1, [] => []
  | f + 1, c :: rest =>
    match matchPriorityLen (c :: rest) with
    | some n => subPriorityFuel f ((c :: rest).drop n)
    | none => c :: subPriorityFuel f rest

def subPriority (l : List Char) : List Char := subPriorityFuel (l.length + 1) l

/-- `$` of the deadline pattern: end of subject, or just before a final
newline. -/
def atDollar (l : List Char) : Bool :=
  l.isEmpty || l == ['\n']

/-- The terminator `(?:\s+priority|\s+tags|\s+@|$)` of the deadline pattern,
tested at `l`; `ci` selects the IGNORECASE variant.  (The `\s+` of an
alternative can only succeed on the maximal whitespace run, because each
literal begins with a non-whitespace character.)  Returns the consumed
length, `none` when no alternative matches. -/
def deadlineTerm (ci : Bool) (l : List Char) : Option Nat :=
  let lit : List Char → List Char → Bool := fun pat r =>
    if ci then ciPrefix pat r else pat.isPrefixOf r
  let ws := l.takeWhile pyIsSpace
  let r := l.drop ws.length
  if !ws.isEmpty && lit "priority".data r then some (ws.length + 8)
  else if !ws.isEmpty && lit "tags".data r then some (ws.length + 4)
  else if !ws.isEmpty && lit "@".data r then some (ws.length + 1)
  else if atDollar l then some 0
  else none

/-- The lazy `(.+?)` of the deadline pattern: grow the group one character at
a time (never across a newline) until the terminator matches. Returns the
group. -/
def deadlineLazy (ci : Bool) (acc : List Char) : List Char → Option (List Char)
  | [] => none
  | c :: rest =>
    if c == '\n' then none
    else
      let g := acc ++ [c]
      match deadlineTerm ci rest with
      | some _ => some g
      | none => deadlineLazy ci g rest

/-- The greedy `\s+` after `deadline`: try the longest whitespace run first,
backtracking one character at a time (`k` is the run length still allowed). -/
def deadlineWs (ci : Bool) (r : List Char) : Nat → Option (Nat × List Char)
  | 0 => none
  | k + 1 =>
    match deadlineLazy ci [] (r.drop (k + 1)) with
    | some g => some (k + 1, g)
    | none => deadlineWs ci r k

/-- Anchored match of `deadline\s+(.+?)(?:\s+priority|\s+tags|\s+@|$)`;
returns (whitespace length, group). -/
def matchDeadlineAt (ci : Bool) (l : List Char) : Option (Nat × List Char) :=
  let ok := if ci then ciPrefix "deadline".data l else "deadline".data.isPrefixOf l
  if ok then
    let r := l.drop 8
    let ws := r.takeWhile pyIsSpace
    if ws.isEmpty then none else deadlineWs ci r ws.length
  else none

/-- `re.search(r'deadline\s+(.+?)(?:\s+priority|\s+tags|\s+@|$)', text)` on a
lowercased subject; returns the group. -/
def searchDeadline : List Char → Option (List Char)
  | [] => none
  | c :: rest =>
    match matchDeadlineAt false (c :: rest) with
    | some (_, g) => some g
    | none => searchDeadline rest

/-- `re.sub(r'deadline\s+.+?(?=\s+priority|\s+tags|\s+@|$)', '', text,
flags=re.IGNORECASE)`: the terminator is a lookahead, so a match consumes
`8 + ws + |group|` characters. -/
def subDeadlineFuel : Nat → List Char → List Char
  | 0, l => l
  | _ + 1, [] => []
  | f + 1, c :: rest =>
    match matchDeadlineAt true (c :: rest) with
    | some (k, g) => subDeadlineFuel f ((c :: rest).drop (8 + k + g.length))
    | none => c :: subDeadlineFuel f rest

def subDeadline (l : List Char) : List Char := subDeadlineFuel (l.length + 1) l

/-- A `[\w,]` character. -/
def tagChar (c : Char) : Bool := wordChar c || c == ','

/-- Anchored match of `tags?\s+([\w,]+)`; `ci` selects IGNORECASE.  Returns
(consumed length, group).  The optional `s` is greedy, with a backtracking
retry without it. -/
def matchTagsAt (ci : Bool) (l : List Char) : Option (Nat × List Char) :=
  let ok := if ci then ciPrefix "tag".data l else "tag".data.isPrefixOf l
  if ok then
    let attempt : List Char → Option (Nat × List Char) := fun r =>
      let ws := r.takeWhile pyIsSpace
      if ws.isEmpty then none
      else
        let g := (r.drop ws.length).takeWhile tagChar
        if g.isEmpty then none else some (ws.length + g.length, g)
    let hasS :=
      match l.drop 3 with
      | c :: _ => if ci then lowerChar c == 's' else c == 's'
      | [] => false
    if hasS then
      match attempt (l.drop 4) with
      | some (n, g) => some (4 + n, g)
      | none =>
        match attempt (l.drop 3) with
        | some (n, g) => some (3 + n, g)
        | none => none
    else
      match attempt (l.drop 3) with
      | some (n, g) => some (3 + n, g)
      | none => none
  else none

/-- `re.search(r'tags?\s+([\w,]+)', text)` on a lowercased subject. -/
def searchTags : List Char → Option (List Char)
  | [] => none
  | c :: rest =>
    match matchTagsAt false (c :: rest) with
    | some (_, g) => some g
    | none => searchTags rest

/-- `re.sub(r'tags?\s+[\w,]+', '', text, flags=re.IGNORECASE)`. -/
def subTagsFuel : Nat → List Char → List Char
  | 0, l => l
  | _ + 1, [] => []
  | f + 1, c :: rest =>
    match matchTagsAt true (c :: rest) with
    | some (n, _) => subTagsFuel f ((c :: rest).drop n)
    | none => c :: subTagsFuel f rest

def subTags (l : List Char) : List Char := subTagsFuel (l.length + 1) l

/-! ## Parameter extraction and `CommandParser.parse` -/

/-- `CommandParser._extract_time_context` (subject already lowercased). -/
def extractTimeContext (textLower : String) : Option String :=
  if ["vandaag", "today"].any (fun w => strContains textLower w) then some "today"
  else if ["morgen", "tomorrow"].any (fun w => strContains textLower w) then some "tomorrow"
  else if ["week", "deze week"].any (fun w => strContains textLower w) then some "this_week"
  else if ["maand", "deze maand"].any (fun w => strContains textLower w) then some "this_month"
  else none

/-- `CommandParser._extract_calendar_params` (also used for REMINDER). -/
def extractCalendarParams (text : String) : Params :=
  let tl := pyLower text
  let action :=
    if ["maak", "plan", "afspraak", "toevoeg"].any (fun w => strContains tl w) then "create"
    else if ["lijst", "toon", "bekijk", "overzicht"].any (fun w => strContains tl w) then "list"
    else if ["vandaag", "today"].any (fun w => strContains tl w) then "today"
    else if ["morgen", "tomorrow"].any (fun w => strContains tl w) then "tomorrow"
    else if ["verwijder", "delete", "annuleer"].any (fun w => strContains tl w) then "delete"
    else "unknown"
  [("action", PValue.pstr action),
   ("time_context",
     match extractTimeContext tl with
     | some t => PValue.pstr t
     | none => PValue.pnone)]

/-- `CommandParser._extract_task_params`: the four regex extractions in
source order (delegate, priority, deadline, tags), each consuming its
fragment out of the working text, the stripped remainder becoming the
title. -/
def extractTaskParams (text : String) : Params :=
  let t0 := text.data
  let (ps1, t1) :=
    match searchMention t0 with
    | some g => ([("delegated_to", PValue.pstr ⟨g⟩)], subMention t0)
    | none => ([], t0)
  let (ps2, t2) :=
    match searchPriority (lowerList t1) with
    | some g => (ps1 ++ [("priority", PValue.pstr g)], subPriority t1)
    | none => (ps1, t1)
  let (ps3, t3) :=
    match searchDeadline (lowerList t2) with
    | some g => (ps2 ++ [("due_date", PValue.pstr (pyStrip ⟨g⟩))], subDeadline t2)
    | none => (ps2, t2)
  let (ps4, t4) :=
    match searchTags (lowerList t3) with
    | some g =>
      (ps3 ++ [("tags", PValue.plist ((splitOnChar ',' g).map
          (fun tg => pyStrip ⟨tg⟩)))], subTags t3)
    | none => (ps3, t3)
  ps4 ++ [("title", PValue.pstr (pyStrip ⟨t4⟩))]

/-- `CommandParser._extract_note_params`. -/
def extractNoteParams (text : String) : Params :=
  let tl := pyLower text
  let action :=
    if ["maak", "nieuw", "schrijf"].any (fun w => strContains tl w) then "create"
    else if ["lijst", "toon", "bekijk"].any (fun w => strContains tl w) then "list"
    else if ["zoek", "vind", "search"].any (fun w => strContains tl w) then "search"
    else "unknown"
  [("action", PValue.pstr action)]

/-- `CommandParser._extract_scan_params`. -/
def extractScanParams (text : String) : Params :=
  let tl := pyLower text
  let scanType :=
    if strContains tl "bon" || strContains tl "receipt" then "receipt"
    else if strContains tl "foto" || strContains tl "image" then "image"
    else if strContains tl "document" || strContains tl "pdf" then "document"
    else "document"
  [("scan_type", PValue.pstr scanType)]

/-- `CommandParser._extract_help_params`: first keyword (in table order)
contained in the lowercased text becomes the topic; `None` otherwise. -/
def extractHelpParams (text : String) : Params :=
  let tl := pyLower text
  let topic := (commandKeywords.find? (fun p => strContains tl p.1)).map (·.2)
  [("topic",
    match topic with
    | some t => PValue.pcmd t
    | none => PValue.pnone)]

/-- `CommandParser._extract_parameters`. -/
def extractParameters (commandType : CommandType) (text : String) : Params :=
  let params : Params := [("raw_text", PValue.pstr text)]
  match commandType with
  | .CALENDAR => Params.update params (extractCalendarParams text)
  | .REMINDER => Params.update params (extractCalendarParams text)
  | .TASK => Params.update params (extractTaskParams text)
  | .NOTE => Params.update params (extractNoteParams text)
  | .SCAN => Params.update params (extractScanParams text)
  | .HELP => Params.update params (extractHelpParams text)
  | .UNKNOWN => params

/-- `CommandParser.parse`. -/
def CommandParser.parse (text : String) : ParsedCommand :=
  let t := pyStrip text
  if !pyStartsWith t "#" then
    { commandType := .UNKNOWN, originalText := t, commandText := "", parameters := [] }
  else
    let (tok, rest) := pySplitMax t.data
    let commandWord : String := ⟨lowerList (tok.drop 1)⟩
    let commandText : String := ⟨rest⟩
    let commandType :=
      match commandKeywords.find? (fun p => p.1 == commandWord) with
      | some p => p.2
      | none => .UNKNOWN
    { commandType := commandType, originalText := t, commandText := commandText,
      parameters := extractParameters commandType commandText }

/-- `CommandParser.is_command` (the classmethod). -/
def CommandParser.isCommandText (text : String) : Bool :=
  pyStartsWith (pyStrip text) "#"

/-! ## Persistent state, entities and the external environment

Identifiers (UUIDs, user ids) are modelled as `Nat`.  The SQLAlchemy session
becomes an explicit `World` record threaded through every operation; a
message insert appends to the owning conversation's ordered message list
(rows are ordered by `created_at`, i.e. by insertion).  Python exceptions
become `Except PyErr`. -/

inductive PyErr where
  | valueError (msg : String)
  | typeError (msg : String)
deriving DecidableEq, Repr

/-- Message metadata values (`command`: the kind string or None,
`command_params`: the parameters dict or None). -/
inductive MetaVal where
  | mstr (s : String)
  | mparams (ps : Params)
  | mnone
deriving DecidableEq, Repr

structure Msg where
  role : String
  content : String
  meta : List (String × MetaVal)
deriving DecidableEq, Repr

structure Conv where
  id : Nat
  userId : Nat
  title : String
  mode : String
  messages : List Msg
deriving DecidableEq, Repr

structure Person where
  id : Nat
  userId : Nat
  name : String
deriving DecidableEq, Repr

structure TaskRec where
  taskNumber : Nat
  userId : Nat
  title : String
  memo : Option String
  delegatedTo : Option Nat
  dueDate : Option String
  priority : String
  status : String
  statusDescription : Option String
  tags : List String
deriving DecidableEq, Repr

/-- The argument record of `calendar_use_cases.create_event`, which is also
what the adapter echoes back as the created event. -/
structure EventReq where
  userId : Nat
  title : String
  startTime : Int
  endTime : Int
  description : Option String
  location : Option String
deriving DecidableEq, Repr

structure World where
  convs : List Conv
  persons : List Person
  tasks : List TaskRec
  events : List EventReq
  nextTaskNumber : Nat
deriving DecidableEq, Repr

/-- External capabilities: the Claude service, the calendar adapter and the
stdlib boundary (`json.loads` restricted to objects of string fields, and
`datetime.fromisoformat` mapped to minute timestamps).  All of them are
fallible; an `Except.error` stands for a raised exception carrying
`str(e)`. -/
structure Env where
  llm : List (String × String) → String → Except String String
  llmChunks : List String
  jsonLoads : String → Except String (List (String × String))
  fromIso : String → Except String Int
  createEvent : EventReq → Except String EventReq
  systemPrompt : String → String
  today : String
  fmtDateTime : Int → String
  showDateTime : Int → String

/-- Python `event_data["k"]`: KeyError when absent. -/
def getReq (d : List (String × String)) (k : String) : Except String String :=
  match List.find? (fun p => p.1 == k) d with
  | some p => .ok p.2
  | none => .error ("KeyError: " ++ k)

/-- Python `event_data.get("k")`. -/
def getOpt (d : List (String × String)) (k : String) : Option String :=
  (List.find? (fun p => p.1 == k) d).map (·.2)

/-! ## Repositories -/

/-- `ConversationRepository.get_conversation`: filter by id, and by owner
when `user_id` is passed (the source guards the owner filter with Python
truthiness on the optional argument, modelled by `Option`). -/
def repoGetConversation (w : World) (cid : Nat) (uid : Option Nat) : Option Conv :=
  List.find? (fun c =>
    c.id == cid && (match uid with | some u => c.userId == u | none => true)) w.convs

/-- `ConversationUseCases.get_conversation` (always owner-scoped). -/
def getConversation (w : World) (cid uid : Nat) : Option Conv :=
  repoGetConversation w cid (some uid)

/-- `ConversationRepository.add_message`: insert a message row for the
conversation (chronological append) and return it. -/
def addMessage (w : World) (cid : Nat) (role content : String)
    (meta : List (String × MetaVal)) : Msg × World :=
  let m : Msg := { role := role, content := content, meta := meta }
  (m, { w with convs := w.convs.map (fun c =>
      if c.id == cid then { c with messages := c.messages ++ [m] } else c) })

/-- `ConversationRepository.update_conversation` restricted to the title
update performed by `generate_title` (lookup by id only, no owner filter). -/
def updateConversationTitle (w : World) (cid : Nat) (title : String) : World :=
  { w with convs := w.convs.map (fun c =>
      if c.id == cid then { c with title := title } else c) }

/-- SQL LIKE pattern matching (pattern, then subject, both already
case-folded): `_` matches any single character, `%` any sequence, and a
backslash escapes the following pattern character.  A pattern ending in a
bare escape character makes PostgreSQL raise `invalid_escape_sequence` and
is rendered here as a non-match; such a pattern is unreachable from the
`@(\w+)` delegate mentions, which consist of word characters only. -/
def likeMatchFuel : Nat → List Char → List Char → Bool
  | 0, _, _ => false
  | _ + 1, [], [] => true
  | _ + 1, [], _ :: _ => false
  | f + 1, '%' :: ps, [] => likeMatchFuel f ps []
  | f + 1, '%' :: ps, c :: t =>
    likeMatchFuel f ps (c :: t) || likeMatchFuel f ('%' :: ps) t
  | _ + 1, '_' :: _, [] => false
  | f + 1, '_' :: ps, _ :: t => likeMatchFuel f ps t
  | f + 1, '\\' :: p :: ps, c :: t => p == c && likeMatchFuel f ps t
  | _ + 1, ['\\'], _ => false
  | _ + 1, _ :: _, [] => false
  | f + 1, p :: ps, c :: t => p == c && likeMatchFuel f ps t

/-- Every step of `likeMatchFuel` shrinks `pattern.length + subject.length`,
so this fuel always suffices. -/
def likeMatch (pat s : List Char) : Bool :=
  likeMatchFuel (pat.length + s.length + 1) pat s

/-- `PersonModel.name.ilike(name)`: PostgreSQL ILIKE — case-insensitive
LIKE with the delegate name as the *pattern* and the stored person name as
the subject (case folding is the ASCII fragment, as everywhere in this
file). -/
def ilikeMatch (subject pattern : String) : Bool :=
  likeMatch (lowerList pattern.data) (lowerList subject.data)

/-- `PersonRepository.find_person_by_name`: the owner filter plus
`name.ilike(name)`; `.first()` takes the first matching row. -/
def findPersonByName (w : World) (uid : Nat) (name : String) : Option Person :=
  List.find? (fun p => p.userId == uid && ilikeMatch p.name name) w.persons

/-! ## Task creation (`task_use_cases.py`) -/

structure TaskEntity where
  title : String
  memo : Option String
  delegatedTo : Option Nat
  dueDate : Option String
  priority : String
  status : String
  statusDescription : Option String
  tags : List String
deriving DecidableEq, Repr

/-- Modelled from the spec: `Task.create` of `app/domain/entities/task.py`,
a file absent from `src/`.  Per spec §3 a Task carries title, optional memo,
optional delegate reference, free-text due date, priority and tags, and per
§7 an empty task title is a ValidationError; the status of a fresh task is
"new" (the task repository default). -/
def taskEntityCreate (title : String) (memo : Option String)
    (delegatedTo : Option Nat) (dueDate : Option String) (priority : String)
    (tags : List String) : Except String TaskEntity :=
  if pyStrip title == "" then .error "Task title cannot be empty"
  else .ok { title := title, memo := memo, delegatedTo := delegatedTo,
             dueDate := dueDate, priority := priority, status := "new",
             statusDescription := none, tags := tags }

/-- Zero-padded `f"Task-{n:08d}"`. -/
def pad8 (n : Nat) : String :=
  let s := toString n
  ⟨List.replicate (8 - s.data.length) '0'⟩ ++ s

/-- The dict built by `TaskUseCases._model_to_dict` (the fields the
conversation flow reads). -/
structure TaskDict where
  taskNumber : Nat
  formattedId : Option String
  title : String
  delegatedTo : Option Nat
  delegatedPersonName : Option String
  dueDate : Option String
  priority : String
  status : String
  tags : List String
deriving DecidableEq, Repr

def modelToDict (w : World) (t : TaskRec) : TaskDict :=
  { taskNumber := t.taskNumber,
    formattedId := if t.taskNumber != 0 then some ("Task-" ++ pad8 t.taskNumber) else none,
    title := t.title,
    delegatedTo := t.delegatedTo,
    delegatedPersonName :=
      match t.delegatedTo with
      | some pid => (List.find? (fun p => p.id == pid) w.persons).map Person.name
      | none => none,
    dueDate := t.dueDate,
    priority := t.priority,
    status := t.status,
    tags := t.tags }

/-- `TaskUseCases.create_task`: resolve the delegate name (when truthy) via
the case-insensitive person lookup — an unresolved name simply leaves the
delegate unset — then validate through the domain entity and insert, the
task number coming from the per-installation sequence. -/
def createTask (w : World) (userId : Nat) (title : String) (memo : Option String)
    (delegatedToName : Option String) (dueDate : Option String)
    (priority : String) (tags : List String) : Except String TaskDict × World :=
  let delegatedToId : Option Nat :=
    match delegatedToName with
    | some n => if n == "" then none else (findPersonByName w userId n).map Person.id
    | none => none
  match taskEntityCreate title memo delegatedToId dueDate priority tags with
  | .error e => (.error e, w)
  | .ok ent =>
    let tm : TaskRec :=
      { taskNumber := w.nextTaskNumber, userId := userId, title := ent.title,
        memo := ent.memo, delegatedTo := ent.delegatedTo, dueDate := ent.dueDate,
        priority := ent.priority, status := ent.status,
        statusDescription := ent.statusDescription, tags := ent.tags }
    let w' := { w with tasks := w.tasks ++ [tm], nextTaskNumber := w.nextTaskNumber + 1 }
    (.ok (modelToDict w' tm), w')

/-! ## Command handling (`ConversationUseCases._handle_command`) -/

def calendarSystemPrompt : String :=
  "You are a calendar assistant. Extract event details and respond with valid JSON only."

def calendarExtractionPrompt (originalText today : String) : String :=
  "Extract calendar event details from this request: \"" ++ originalText ++ "\"\n\n" ++
  "Return JSON with:\n" ++
  "- title (string, required)\n" ++
  "- start_time (ISO 8601 datetime, required)\n" ++
  "- end_time (ISO 8601 datetime, required)\n" ++
  "- description (string, optional)\n" ++
  "- location (string, optional)\n\n" ++
  "Current date and time context: " ++ today ++ "\n" ++
  "Use this as reference for relative dates like \"morgen\" (tomorrow), \"volgende week\" (next week), etc."

def reminderExtractionPrompt (originalText today : String) : String :=
  "Extract reminder/event details from this request: \"" ++ originalText ++ "\"\n\n" ++
  "Return JSON with:\n" ++
  "- title (string, required - just the title without emoji)\n" ++
  "- start_time (ISO 8601 datetime, required)\n" ++
  "- description (string, optional)\n" ++
  "- location (string, optional)\n\n" ++
  "Note: Do NOT include end_time - reminders are 5 minutes by default.\n\n" ++
  "Current date and time context: " ++ today ++ "\n" ++
  "Use this as reference for relative dates like \"morgen\" (tomorrow), \"vanavond\" (tonight), etc."

def calendarFailMsg (e : String) : String :=
  "❌ Kon de afspraak niet maken: " ++ e ++
  "\n\nZorg dat je een kalender hebt gekoppeld in Settings."

def reminderFailMsg (e : String) : String :=
  "❌ Kon de herinnering niet maken: " ++ e ++
  "\n\nZorg dat je een kalender hebt gekoppeld in Settings."

def taskEmptyTitleMsg : String :=
  "❌ Taak titel kan niet leeg zijn.\n\nVoorbeeld: #task Rapport maken deadline volgende week @Maria"

/-- The CALENDAR branch: one LLM extraction call, JSON decoding, ISO parsing
of both times, then the calendar adapter; the whole `try` body collapses to
an in-band failure message on any error. -/
def handleCalendar (env : Env) (w : World) (cmd : ParsedCommand) (conv : Conv) :
    Except PyErr String × World :=
  match env.llm [("user", calendarExtractionPrompt cmd.originalText env.today)]
      calendarSystemPrompt with
  | .error e => (.ok (calendarFailMsg e), w)
  | .ok txt =>
    match env.jsonLoads txt with
    | .error e => (.ok (calendarFailMsg e), w)
    | .ok eventData =>
      match getReq eventData "start_time" with
      | .error e => (.ok (calendarFailMsg e), w)
      | .ok s =>
        match env.fromIso (pyReplace s "Z" "+00:00") with
        | .error e => (.ok (calendarFailMsg e), w)
        | .ok startTime =>
          match getReq eventData "end_time" with
          | .error e => (.ok (calendarFailMsg e), w)
          | .ok e2 =>
            match env.fromIso (pyReplace e2 "Z" "+00:00") with
            | .error e => (.ok (calendarFailMsg e), w)
            | .ok endTime =>
              match getReq eventData "title" with
              | .error e => (.ok (calendarFailMsg e), w)
              | .ok title =>
                let req : EventReq :=
                  { userId := conv.userId, title := title, startTime := startTime,
                    endTime := endTime, description := getOpt eventData "description",
                    location := getOpt eventData "location" }
                match env.createEvent req with
                | .error e => (.ok (calendarFailMsg e), w)
                | .ok ev =>
                  (.ok ("✅ Agenda-afspraak aangemaakt!\n\n📅 **" ++ ev.title ++
                    "**\n🕐 " ++ env.showDateTime ev.startTime ++ " - " ++
                    env.showDateTime ev.endTime ++ "\n📍 " ++
                    (match ev.location with | some l => l | none => "Geen locatie") ++
                    "\n\nDe afspraak is toegevoegd aan je gekoppelde kalender."),
                   { w with events := w.events ++ [req] })

/-- The event record the REMINDER branch hands to the calendar adapter:
`end_time = start_time + timedelta(minutes=5)` and the bell-prefixed
title, with the optional description/location fields of the extraction. -/
def reminderReq (conv : Conv) (eventData : List (String × String))
    (t : String) (st : Int) : EventReq :=
  { userId := conv.userId, title := "🔔 " ++ t, startTime := st, endTime := st + 5,
    description := getOpt eventData "description",
    location := getOpt eventData "location" }

/-- The REMINDER branch: like CALENDAR but the end time is derived as
start + 5 minutes and the title receives the bell prefix. -/
def handleReminder (env : Env) (w : World) (cmd : ParsedCommand) (conv : Conv) :
    Except PyErr String × World :=
  match env.llm [("user", reminderExtractionPrompt cmd.originalText env.today)]
      calendarSystemPrompt with
  | .error e => (.ok (reminderFailMsg e), w)
  | .ok txt =>
    match env.jsonLoads txt with
    | .error e => (.ok (reminderFailMsg e), w)
    | .ok eventData =>
      match getReq eventData "start_time" with
      | .error e => (.ok (reminderFailMsg e), w)
      | .ok s =>
        match env.fromIso (pyReplace s "Z" "+00:00") with
        | .error e => (.ok (reminderFailMsg e), w)
        | .ok startTime =>
          match getReq eventData "title" with
          | .error e => (.ok (reminderFailMsg e), w)
          | .ok title =>
            match env.createEvent (reminderReq conv eventData title startTime) with
            | .error e => (.ok (reminderFailMsg e), w)
            | .ok ev =>
              (.ok ("⏰ Herinnering aangemaakt!\n\n📝 " ++ title ++ "\n🕐 " ++
                env.fmtDateTime ev.startTime ++
                "\n\nDe herinnering is toegevoegd aan je kalender."),
               { w with events := w.events ++ [reminderReq conv eventData title startTime] })

/-- The TASK branch: already-extracted parameters, the raw command text as a
fallback title (Python `or` on a possibly empty string), in-band validation
failure for a blank title, then `TaskUseCases.create_task`. -/
def handleTask (env : Env) (w : World) (cmd : ParsedCommand) (conv : Conv) :
    Except PyErr String × World :=
  let _ := env
  let title :=
    match Params.get cmd.parameters "title" with
    | some (PValue.pstr s) => if s == "" then cmd.commandText else s
    | _ => cmd.commandText
  if title == "" || pyStrip title == "" then (.ok taskEmptyTitleMsg, w)
  else
    let delegatedTo :=
      match Params.get cmd.parameters "delegated_to" with
      | some (PValue.pstr s) => some s
      | _ => none
    let dueDate :=
      match Params.get cmd.parameters "due_date" with
      | some (PValue.pstr s) => some s
      | _ => none
    let priority :=
      match Params.get cmd.parameters "priority" with
      | some (PValue.pstr s) => s
      | _ => "medium"
    let tags :=
      match Params.get cmd.parameters "tags" with
      | some (PValue.plist l) => l
      | _ => []
    match createTask w conv.userId title none delegatedTo dueDate priority tags with
    | (.error e, w') => (.ok ("❌ Kon de taak niet maken: " ++ e), w')
    | (.ok td, w') =>
      let lines :=
        ["✅ Taak aangemaakt!", "",
         "**" ++ (match td.formattedId with | some f => f | none => "None") ++
           "**: " ++ td.title] ++
        (match td.delegatedPersonName with
         | some n => if n == "" then [] else ["👤 Gedelegeerd aan: " ++ n]
         | none => []) ++
        (match td.dueDate with
         | some d => if d == "" then [] else ["📅 Deadline: " ++ d]
         | none => []) ++
        ["⚡ Prioriteit: " ++ td.priority] ++
        (match td.tags with
         | [] => []
         | ts => ["🏷️  Tags: " ++ String.intercalate ", " ts])
      (.ok (String.intercalate "\n" lines), w')

/-- The message raised (not caught) by the HELP-with-topic branch: the
source stores a zero-argument lambda as `get_help_text` in a dynamically
built class and invokes it through the instance, so Python passes the
instance as an extra positional argument. -/
def lambdaTypeErrorMsg : String :=
  "<lambda>() takes 0 positional arguments but 1 was given"

/-- `ConversationUseCases._handle_command`. -/
def handleCommand (env : Env) (w : World) (cmd : ParsedCommand) (conv : Conv) :
    Except PyErr String × World :=
  match cmd.commandType with
  | .HELP =>
    match Params.get cmd.parameters "topic" with
    | some (PValue.pcmd _) => (.error (.typeError lambdaTypeErrorMsg), w)
    | _ => (.ok cmd.getHelpText, w)
  | .CALENDAR => handleCalendar env w cmd conv
  | .REMINDER => handleReminder env w cmd conv
  | .TASK => handleTask env w cmd conv
  | .NOTE =>
    (.ok ("📝 Notitie functie wordt geactiveerd. Wat wil je noteren?\n\n" ++
      cmd.getHelpText), w)
  | .SCAN =>
    (.ok ("📸 Scan functie wordt geactiveerd. Upload een document om te scannen.\n\n" ++
      cmd.getHelpText), w)
  | .UNKNOWN => (.ok unknownCommandMsg, w)

/-! ## Buffered send (`ConversationUseCases.send_message`) -/

/-- Modelled from the spec: `Conversation.get_messages_for_claude` of
`app/domain/entities/conversation.py`, a file absent from `src/`.  Per spec
§4.2 step 5 and the glossary, the bounded context window forwards the
most-recent 50 messages as role/content pairs. -/
def messagesForClaude (c : Conv) (maxMessages : Nat := 50) : List (String × String) :=
  (c.messages.drop (c.messages.length - maxMessages)).map (fun m => (m.role, m.content))

/-- `ConversationUseCases._get_ai_response`: one completion over the recent
window and the mode system prompt; an LLM failure propagates (plain-chat
branch). -/
def getAiResponse (env : Env) (conv : Conv) (mode : String) : Except PyErr String :=
  match env.llm (messagesForClaude conv) (env.systemPrompt mode) with
  | .ok t => .ok t
  | .error e => .error (.valueError e)

/-- The metadata recorded on the user's message. -/
def userMsgMeta (pc : ParsedCommand) : List (String × MetaVal) :=
  [("command", if pc.isCommand then MetaVal.mstr pc.commandType.value else MetaVal.mnone),
   ("command_params", if pc.isCommand then MetaVal.mparams pc.parameters else MetaVal.mnone)]

/-- Python `mode or conversation.mode` (an empty override is falsy). -/
def effectiveMode (mode : Option String) (conv : Conv) : String :=
  match mode with
  | some m => if m == "" then conv.mode else m
  | none => conv.mode

/-- `ConversationUseCases.send_message`: owner-scoped lookup (ValueError
before any side effect), parse, unconditional persist of the user message,
dispatch, persist of the assistant reply. -/
def sendMessage (env : Env) (w : World) (cid uid : Nat) (content : String)
    (mode : Option String) : Except PyErr Msg × World :=
  match getConversation w cid uid with
  | none => (.error (.valueError "Conversation not found or access denied"), w)
  | some conv =>
    let pc := CommandParser.parse content
    let (_, w1) := addMessage w cid "user" content (userMsgMeta pc)
    let dispatched : Except PyErr String × World :=
      if pc.isCommand then handleCommand env w1 pc conv
      else
        match getAiResponse env conv (effectiveMode mode conv) with
        | .ok r => (.ok r, w1)
        | .error e => (.error e, w1)
    match dispatched with
    | (.error e, w2) => (.error e, w2)
    | (.ok response, w2) =>
      let (m, w3) := addMessage w2 cid "assistant" response []
      (.ok m, w3)

/-! ## Streaming send (`ConversationUseCases.send_message_stream`)

The async generator is embedded as a resumption machine: `GenCont` is the
saved position of the generator between two `yield`s, `genStep` runs the
body up to the next yield / return, and `runGen n` performs `n` consumer
pulls — cancelling after `n` pulls is exactly stopping the iteration
there, which skips all code after the pending yield. -/

inductive GenCont where
  /-- Nothing has run yet (the generator body starts on the first pull). -/
  | begin (cid uid : Nat) (content : String) (mode : Option String)
  /-- Inside `async for chunk in ...`: accumulated response and remaining
  chunks. -/
  | chatLoop (cid : Nat) (acc : String) (rest : List String)
  /-- The single command-response yield has happened; the next pull just
  terminates the generator. -/
  | afterCmd
deriving DecidableEq, Repr

inductive StepOut where
  | yielded (chunk : String) (next : GenCont)
  | stopped
deriving DecidableEq, Repr

def genStep (env : Env) (k : GenCont) (w : World) : Except PyErr StepOut × World :=
  match k with
  | .begin cid uid content _mode =>
    match getConversation w cid uid with
    | none => (.error (.valueError "Conversation not found or access denied"), w)
    | some _conv =>
      let pc := CommandParser.parse content
      let w1 := (addMessage w cid "user" content (userMsgMeta pc)).2
      match getConversation w1 cid uid with
      | none => (.error (.valueError "Failed to reload conversation"), w1)
      | some conv2 =>
        if pc.isCommand then
          match handleCommand env w1 pc conv2 with
          | (.error e, w2) => (.error e, w2)
          | (.ok response, w2) =>
            (.ok (.yielded response .afterCmd), (addMessage w2 cid "assistant" response []).2)
        else
          match env.llmChunks with
          | [] => (.ok .stopped, (addMessage w1 cid "assistant" "" []).2)
          | c :: rest => (.ok (.yielded c (.chatLoop cid c rest)), w1)
  | .chatLoop cid acc rest =>
    match rest with
    | [] => (.ok .stopped, (addMessage w cid "assistant" acc []).2)
    | c :: rs => (.ok (.yielded c (.chatLoop cid (acc ++ c) rs)), w)
  | .afterCmd => (.ok .stopped, w)

deriving instance DecidableEq for Except

structure RunRes where
  yielded : List String
  world : World
  completed : Bool
  err : Option PyErr
deriving DecidableEq, Repr

/-- Pull the generator `n` times (each pull is one `next()`); stopping short
of termination models a consumer disconnect. -/
def runGen (env : Env) : Nat → GenCont → World → RunRes
  | 0, _, w => { yielded := [], world := w, completed := false, err := none }
  | n + 1, k, w =>
    match genStep env k w with
    | (.error e, w') => { yielded := [], world := w', completed := false, err := some e }
    | (.ok .stopped, w') => { yielded := [], world := w', completed := true, err := none }
    | (.ok (.yielded c k'), w') =>
      let r := runGen env n k' w'
      { yielded := c :: r.yielded, world := r.world, completed := r.completed, err := r.err }

/-! ## Title generation (`ConversationUseCases.generate_title`) -/

def titleSystemPrompt : String :=
  "Je bent een expert in het maken van korte, beschrijvende titels. Geef alleen de titel, niets anders."

def titlePrompt (context : String) : String :=
  "Geef een korte, beschrijvende titel (2-5 woorden) voor dit gesprek:\n\n" ++
  context ++
  "\n\nRegels:\n- Maximaal 5 woorden\n- Beschrijf het hoofdonderwerp\n" ++
  "- In het Nederlands\n- Geen aanhalingstekens of speciale tekens\n" ++
  "- Gewoon de titel, niets anders\n\nTitel:"

/-- The context loop of `generate_title`: up to the first 5 messages,
checking the running character total before each append. -/
def buildCtx : List Msg → Nat → List String
  | [], _ => []
  | m :: rest, total =>
    if total > 500 then []
    else (m.role ++ ": " ++ m.content) :: buildCtx rest (total + pyLen m.content)

def titleContext (conv : Conv) : String :=
  String.intercalate "\n" (buildCtx (conv.messages.take 5) 0)

def quoteChar : Char := Char.ofNat 39

/-- The deterministic fallback of `generate_title`: the stripped 30-char
preview of the first user message, ellipsis-suffixed when truncated. -/
def titleFallback (conv : Conv) : String :=
  match List.find? (fun m => m.role == "user") conv.messages with
  | some m =>
    let fb := pyStrip (pyTake m.content 30)
    if pyLen m.content > 30 then fb ++ "..." else fb
  | none => "Nieuwe chat"

/-- The post-processing of a successful LLM title: strip whitespace, strip
double then single quotes, truncate to 50 and re-strip. -/
def cleanTitle (txt : String) : String :=
  let t := pyStripChar (pyStripChar (pyStrip txt) '"') quoteChar
  if pyLen t > 50 then pyStrip (pyTake t 50) else t

/-- `ConversationUseCases.generate_title`. -/
def generateTitle (env : Env) (w : World) (cid uid : Nat) :
    Except PyErr String × World :=
  match getConversation w cid uid with
  | none => (.error (.valueError "Conversation not found or access denied"), w)
  | some conv =>
    match conv.messages with
    | [] => (.ok "Nieuwe chat", w)
    | _ :: _ =>
      match env.llm [("user", titlePrompt (titleContext conv))] titleSystemPrompt with
      | .ok txt =>
        let title := cleanTitle txt
        (.ok title, updateConversationTitle w cid title)
      | .error _ => (.ok (titleFallback conv), w)

/-! ## General lemmas about the embedding -/

theorem isCommand_iff (c : ParsedCommand) :
    c.isCommand = true ↔ c.commandType ≠ .UNKNOWN := by
  simp [ParsedCommand.isCommand]

/-- The fallback branch of `parse`: text whose stripped form does not begin
with the prefix character. -/
theorem parse_not_prefixed (text : String)
    (hs : pyStartsWith (pyStrip text) "#" = false) :
    CommandParser.parse text =
      { commandType := .UNKNOWN, originalText := pyStrip text,
        commandText := "", parameters := [] } := by
  unfold CommandParser.parse
  simp [hs]

/-- On the prefixed branch, the parameters of a parse result are exactly the
kind-specific extraction over the remainder text. -/
theorem parse_params_eq_prefixed (text : String)
    (hs : pyStartsWith (pyStrip text) "#" = true) :
    (CommandParser.parse text).parameters =
      extractParameters (CommandParser.parse text).commandType
        (CommandParser.parse text).commandText := by
  unfold CommandParser.parse
  simp only [hs, Bool.not_true, if_false, Bool.false_eq_true]

/-- Any parse result that is a command comes from the prefixed branch and
its parameters are the kind-specific extraction over the remainder. -/
theorem parse_params_eq (text : String)
    (h : (CommandParser.parse text).commandType ≠ .UNKNOWN) :
    (CommandParser.parse text).parameters =
      extractParameters (CommandParser.parse text).commandType
        (CommandParser.parse text).commandText := by
  by_cases hs : pyStartsWith (pyStrip text) "#"
  · exact parse_params_eq_prefixed text hs
  · rw [parse_not_prefixed text (by simpa using hs)] at h
    simp at h

/-- `add_message` touches only the conversation table. -/
theorem addMessage_tasks (w : World) (cid : Nat) (r c : String)
    (m : List (String × MetaVal)) : ((addMessage w cid r c m).2).tasks = w.tasks := rfl

theorem addMessage_events (w : World) (cid : Nat) (r c : String)
    (m : List (String × MetaVal)) : ((addMessage w cid r c m).2).events = w.events := rfl

/-- `find?` commutes with a map that does not disturb the predicate. -/
theorem find?_map_of_pred {α : Type} (p : α → Bool) (f : α → α)
    (hpf : ∀ a, p (f a) = p a) (l : List α) :
    List.find? p (l.map f) = (List.find? p l).map f := by
  induction l with
  | nil => rfl
  | cons a t ih =>
    by_cases h : p a
    · rw [List.map_cons, List.find?_cons_of_pos _ (by rw [hpf]; exact h),
        List.find?_cons_of_pos _ h]
      rfl
    · rw [List.map_cons,
        List.find?_cons_of_neg _ (by rw [hpf]; simpa using h),
        List.find?_cons_of_neg _ (by simpa using h), ih]

/-- An inserted message leaves every conversation lookup succeeding exactly
as before (the row keeps its id and owner). -/
theorem getConversation_addMessage (w : World) (cid uid cid' : Nat)
    (r c : String) (m : List (String × MetaVal)) :
    getConversation ((addMessage w cid' r c m).2) cid uid =
      ((getConversation w cid uid).map (fun cv =>
        if cv.id == cid' then
          { cv with messages := cv.messages ++ [{ role := r, content := c, meta := m }] }
        else cv)) := by
  unfold getConversation repoGetConversation addMessage
  exact find?_map_of_pred _ _
    (fun cv => by by_cases h : cv.id == cid' <;> simp [h]) w.convs

/-! ## Concrete fixtures shared by the claim instances -/

def demoEnv : Env :=
  { llm := fun _ _ => .ok "hoi", llmChunks := ["Hel", "lo"],
    jsonLoads := fun _ => .error "Expecting value: line 1 column 1 (char 0)",
    fromIso := fun _ => .error "Invalid isoformat string",
    createEvent := fun r => .ok r,
    systemPrompt := fun m => "sys-" ++ m, today := "2025-01-01 09:00",
    fmtDateTime := fun i => toString i, showDateTime := fun i => toString i }

def demoWorld : World :=
  { convs := [{ id := 1, userId := 7, title := "Nieuwe chat", mode := "chat", messages := [] }],
    persons := [], tasks := [], events := [], nextTaskNumber := 1 }

/-! ## C2 — parse/UNKNOWN invariants -/

/-- C2, counterexample: the claim asserts that every UNKNOWN result carries
an empty parameters map, but a prefixed text with an unrecognized keyword
yields UNKNOWN with a non-empty map (it holds `raw_text`). -/
theorem unknown_keyword_params_nonempty :
    (CommandParser.parse "#foo bar").commandType = .UNKNOWN ∧
    (CommandParser.parse "#foo bar").parameters ≠ [] ∧
    (CommandParser.parse "#foo bar").parameters = [("raw_text", PValue.pstr "bar")] := by
  refine ⟨by decide, by decide, by decide⟩

/-- C2, amended: `is_command` is true iff the kind is not UNKNOWN; any text
whose *stripped* form does not begin with the prefix character parses to
UNKNOWN with an empty parameters map; and an UNKNOWN result carries either
an empty map (non-prefixed path) or exactly the singleton `raw_text` entry
(prefixed text with an unrecognized keyword). -/
theorem parse_unknown_invariants (text : String) :
    ((CommandParser.parse text).isCommand = true ↔
      (CommandParser.parse text).commandType ≠ .UNKNOWN) ∧
    (pyStartsWith (pyStrip text) "#" = false →
      (CommandParser.parse text).commandType = .UNKNOWN ∧
      (CommandParser.parse text).parameters = []) ∧
    ((CommandParser.parse text).commandType = .UNKNOWN →
      (CommandParser.parse text).parameters = [] ∨
      (CommandParser.parse text).parameters =
        [("raw_text", PValue.pstr (CommandParser.parse text).commandText)]) := by
  refine ⟨isCommand_iff _, ?_, ?_⟩
  · intro hs
    unfold CommandParser.parse
    simp [hs]
  · intro hu
    by_cases hs : pyStartsWith (pyStrip text) "#"
    · right
      rw [parse_params_eq_prefixed text hs, hu]
      rfl
    · left
      rw [parse_not_prefixed text (by simpa using hs)]

/-- C2, witness for the amended theorem at a concrete non-prefixed input. -/
theorem parse_unknown_invariants_witness :
    (CommandParser.parse "hallo wereld").commandType = .UNKNOWN ∧
    (CommandParser.parse "hallo wereld").parameters = [] :=
  (parse_unknown_invariants "hallo wereld").2.1 (by decide)

/-! ## C5 — the full Dutch task example -/

/-- C5: `parse "#taak Rapport deadline volgende week @Maria priority high
tags urgent,admin"` is a TASK command carrying `delegated_to="Maria"`,
`priority="high"`, `due_date="volgende week"`, `tags=["urgent","admin"]` and
the fully stripped title `"Rapport"`; the insertion order of the parameters
map records the extraction order delegate → priority → deadline → tags. -/
theorem taak_rapport_full_extraction :
    CommandParser.parse
      "#taak Rapport deadline volgende week @Maria priority high tags urgent,admin" =
    { commandType := .TASK,
      originalText := "#taak Rapport deadline volgende week @Maria priority high tags urgent,admin",
      commandText := "Rapport deadline volgende week @Maria priority high tags urgent,admin",
      parameters :=
        [("raw_text", PValue.pstr "Rapport deadline volgende week @Maria priority high tags urgent,admin"),
         ("delegated_to", PValue.pstr "Maria"),
         ("priority", PValue.pstr "high"),
         ("due_date", PValue.pstr "volgende week"),
         ("tags", PValue.plist ["urgent", "admin"]),
         ("title", PValue.pstr "Rapport")] } := by decide

/-! ## C1 — the HELP-with-topic send -/

/-- C1, evaluation at the failing input: sending `"#help calendar"` to an
existing conversation raises a TypeError out of the HELP branch (the
dynamically built object's `get_help_text` is a zero-argument lambda invoked
as a bound method), so the send aborts after persisting only the user
message — not the two messages the claim requires, and not synchronously
returned help text. -/
theorem help_topic_dispatch_raises :
    (sendMessage demoEnv demoWorld 1 7 "#help calendar" none).1 =
      .error (.typeError lambdaTypeErrorMsg) ∧
    ((sendMessage demoEnv demoWorld 1 7 "#help calendar" none).2.convs.map
      (fun c => c.messages.map Msg.role)) = [["user"]] ∧
    (sendMessage demoEnv demoWorld 1 7 "#help" none).1 =
      .ok { role := "assistant",
            content := (helpTextFor .HELP).getD "", meta := [] } := by
  refine ⟨by decide, by decide, ?_⟩
  decide

/-! ## C3 — empty task title handling -/

/-- C3, counterexample: `"#task @Maria"` has an empty extracted title, yet
the send does NOT return a validation failure — the raw command text is used
as the title and a task IS created (titled `"@Maria"`, undelegated since no
person matches). -/
theorem task_empty_extracted_title_still_creates :
    (Params.get (CommandParser.parse "#task @Maria").parameters "title" =
      some (PValue.pstr "")) ∧
    (sendMessage demoEnv demoWorld 1 7 "#task @Maria" none).1 =
      .ok { role := "assistant",
            content := "✅ Taak aangemaakt!\n\n**Task-00000001**: @Maria\n⚡ Prioriteit: medium",
            meta := [] } ∧
    (sendMessage demoEnv demoWorld 1 7 "#task @Maria" none).2.tasks ≠ [] := by
  refine ⟨by decide, by decide, by decide⟩

/-- C3, amended: the validation-failure reply (and the absence of a created
task) occurs exactly when the fallback chain is empty too — i.e. when the
remainder after the TASK keyword is empty; an empty *extracted* title alone
makes the branch fall back to the raw command text as title. -/
theorem task_blank_command_text_validation (env : Env) (w : World)
    (cid uid : Nat) (content : String) (mode : Option String) (conv : Conv)
    (hc : getConversation w cid uid = some conv)
    (ht : (CommandParser.parse content).commandType = .TASK)
    (he : (CommandParser.parse content).commandText = "") :
    (sendMessage env w cid uid content mode).1 =
      .ok { role := "assistant", content := taskEmptyTitleMsg, meta := [] } ∧
    (sendMessage env w cid uid content mode).2.tasks = w.tasks := by
  have hparams : (CommandParser.parse content).parameters =
      [("raw_text", PValue.pstr ""), ("title", PValue.pstr "")] := by
    rw [parse_params_eq content (by rw [ht]; decide), ht, he]
    decide
  have hic : (CommandParser.parse content).isCommand = true := by
    rw [isCommand_iff, ht]; decide
  unfold sendMessage
  rw [hc]
  simp only [hic, if_true]
  unfold handleCommand handleTask
  rw [ht, hparams, he]
  exact ⟨rfl, rfl⟩

/-- C3, witness for the amended theorem: the bare `"#task"` message. -/
theorem task_blank_command_text_validation_witness :
    (sendMessage demoEnv demoWorld 1 7 "#task" none).1 =
      .ok { role := "assistant", content := taskEmptyTitleMsg, meta := [] } ∧
    (sendMessage demoEnv demoWorld 1 7 "#task" none).2.tasks = demoWorld.tasks :=
  task_blank_command_text_validation demoEnv demoWorld 1 7 "#task" none
    { id := 1, userId := 7, title := "Nieuwe chat", mode := "chat", messages := [] }
    (by decide) (by decide) (by decide)

/-! ## C6 — missing / foreign conversation aborts before persistence -/

/-- C6: when the owner-scoped lookup fails (absent id or another user's
conversation), both the buffered and the streaming send fail with the
not-found ValueError and leave the store untouched — no message row is
written on this path. -/
theorem missing_conversation_no_persistence (env : Env) (w : World)
    (cid uid : Nat) (content : String) (mode : Option String)
    (hc : getConversation w cid uid = none) :
    sendMessage env w cid uid content mode =
      (.error (.valueError "Conversation not found or access denied"), w) ∧
    ∀ n : Nat, (runGen env n (.begin cid uid content mode) w).world = w ∧
      (runGen env n (.begin cid uid content mode) w).yielded = [] := by
  constructor
  · unfold sendMessage
    rw [hc]
  · intro n
    cases n with
    | zero => exact ⟨rfl, rfl⟩
    | succ m =>
      have hstep : genStep env (.begin cid uid content mode) w =
          (.error (.valueError "Conversation not found or access denied"), w) := by
        simp only [genStep, hc]
      simp only [runGen, hstep]
      exact ⟨trivial, trivial⟩

def emptyWorld : World :=
  { convs := [], persons := [], tasks := [], events := [], nextTaskNumber := 1 }

/-- C6, witness: a send into an empty store. -/
theorem missing_conversation_no_persistence_witness :
    sendMessage demoEnv emptyWorld 9 9 "hoi" none =
      (.error (.valueError "Conversation not found or access denied"), emptyWorld) :=
  (missing_conversation_no_persistence demoEnv emptyWorld 9 9 "hoi" none (by decide)).1

/-! ## C10 — unresolved delegate names -/

/-- C10, amended: creating a task with a delegate name that the
repository's lookup misses — PostgreSQL ILIKE, where `_` and `%` in the
mention act as wildcards — behaves exactly like creating it with no
delegate at all: the task is still created (when the title is valid) with
no delegate set, and the unresolved mention can never make the creation
fail. -/
theorem unresolved_delegate_task_created (w : World) (uid : Nat)
    (title : String) (memo : Option String) (name : String)
    (due : Option String) (prio : String) (tags : List String)
    (hname : name ≠ "") (hmiss : findPersonByName w uid name = none) :
    createTask w uid title memo (some name) due prio tags =
      createTask w uid title memo none due prio tags ∧
    (pyStrip title ≠ "" →
      ∃ td w', createTask w uid title memo (some name) due prio tags = (.ok td, w') ∧
        td.delegatedTo = none ∧
        w'.tasks = w.tasks ++
          [{ taskNumber := w.nextTaskNumber, userId := uid, title := title,
             memo := memo, delegatedTo := none, dueDate := due, priority := prio,
             status := "new", statusDescription := none, tags := tags }]) := by
  have hid : (match some name with
      | some n => if n == "" then none
          else (findPersonByName w uid n).map Person.id
      | none => (none : Option Nat)) = none := by
    simp [hmiss, hname]
  constructor
  · unfold createTask
    rw [hid]
  · intro htitle
    unfold createTask
    rw [hid]
    unfold taskEntityCreate
    have h2 : (pyStrip title == "") = false := by
      simpa using htitle
    rw [h2]
    exact ⟨_, _, rfl, rfl, rfl⟩

/-- C10, witness: delegating to the unknown `"Maria"` in a store with no
persons still creates the (undelegated) task. -/
theorem unresolved_delegate_task_created_witness :
    createTask demoWorld 7 "Rapport" none (some "Maria") none "medium" [] =
      createTask demoWorld 7 "Rapport" none none none "medium" [] ∧
    ∃ td w', createTask demoWorld 7 "Rapport" none (some "Maria") none "medium" [] =
        (.ok td, w') ∧ td.delegatedTo = none ∧
      w'.tasks = demoWorld.tasks ++
        [{ taskNumber := 1, userId := 7, title := "Rapport", memo := none,
           delegatedTo := none, dueDate := none, priority := "medium",
           status := "new", statusDescription := none, tags := [] }] := by
  have h := unresolved_delegate_task_created demoWorld 7 "Rapport" none "Maria"
    none "medium" [] (by decide) (by decide)
  exact ⟨h.1, h.2 (by decide)⟩

def wJan : World :=
  { demoWorld with persons := [{ id := 3, userId := 7, name := "Jan Peter" }] }

/-- C10, counterexample: the lookup is ILIKE with the mention as the
pattern, so a delegate name need not *equal* any person name
case-insensitively to resolve.  `"Jan_Peter"` (an `@(\w+)` mention — `\w`
includes the underscore) equals no stored name case-insensitively, yet its
`_` wildcard-matches `"Jan Peter"`, and the created task HAS a delegate set,
refuting "no person matches (case-insensitively) ⇒ no delegate set". -/
theorem wildcard_mention_sets_delegate :
    (wJan.persons.all fun p => pyLower p.name != pyLower "Jan_Peter") = true ∧
    findPersonByName wJan 7 "Jan_Peter" =
      some { id := 3, userId := 7, name := "Jan Peter" } ∧
    ((createTask wJan 7 "Rapport" none (some "Jan_Peter") none "medium" []).1.map
      TaskDict.delegatedTo) = Except.ok (some 3) ∧
    ((createTask wJan 7 "Rapport" none (some "Jan_Peter") none "medium" []).2.tasks.map
      TaskRec.delegatedTo) = [some 3] := by
  refine ⟨by decide, by decide, by decide, by decide⟩

/-! ## C9 — title persistence discipline -/

/-- The two exits of `generate_title` on a non-empty conversation: the
failing-LLM branch returns the fallback and performs no write, the
successful branch writes and returns the cleaned title. -/
theorem generateTitle_llm_cases (env : Env) (w : World) (cid uid : Nat)
    (conv : Conv) (hc : getConversation w cid uid = some conv)
    (hne : conv.messages ≠ []) :
    (∀ e, env.llm [("user", titlePrompt (titleContext conv))] titleSystemPrompt =
        .error e →
      generateTitle env w cid uid = (.ok (titleFallback conv), w)) ∧
    (∀ txt, env.llm [("user", titlePrompt (titleContext conv))] titleSystemPrompt =
        .ok txt →
      generateTitle env w cid uid =
        (.ok (cleanTitle txt), updateConversationTitle w cid (cleanTitle txt))) := by
  obtain ⟨m, ms, hm⟩ : ∃ m ms, conv.messages = m :: ms := by
    cases hms : conv.messages with
    | nil => exact absurd hms hne
    | cons m ms => exact ⟨m, ms, rfl⟩
  constructor
  · intro e he
    unfold generateTitle
    rw [hc]
    simp only [hm, he]
  · intro txt ht
    unfold generateTitle
    rw [hc]
    simp only [hm, ht]

/-- C9: when the LLM title call fails, `generate_title` returns the fallback
with the store completely unchanged (the fallback is never written); when it
succeeds, the cleaned title is written to the conversation and returned. -/
theorem title_fallback_not_persisted (env : Env) (w : World) (cid uid : Nat)
    (conv : Conv) (hc : getConversation w cid uid = some conv)
    (hne : conv.messages ≠ []) :
    (∀ e, env.llm [("user", titlePrompt (titleContext conv))] titleSystemPrompt =
        .error e →
      generateTitle env w cid uid = (.ok (titleFallback conv), w)) ∧
    (∀ txt, env.llm [("user", titlePrompt (titleContext conv))] titleSystemPrompt =
        .ok txt →
      generateTitle env w cid uid =
        (.ok (cleanTitle txt), updateConversationTitle w cid (cleanTitle txt))) :=
  generateTitle_llm_cases env w cid uid conv hc hne

/-! ## C8 — the 30-character fallback -/

def padContent : String :=
  "aaaaaaaaaaaaaaaaaaaaaaaaaaaaa bbbb"

def envFail : Env :=
  { demoEnv with llm := fun _ _ => .error "API timeout after 60s" }

def padMsg : Msg := { role := "user", content := padContent, meta := [] }

def padConv : Conv :=
  { id := 1, userId := 7, title := "Nieuwe chat", mode := "chat", messages := [padMsg] }

def wPad : World := { demoWorld with convs := [padConv] }

def helloContent : String :=
  "Hello there, this is a very long message exceeding thirty characters"

def helloMsg : Msg := { role := "user", content := helloContent, meta := [] }

def helloConv : Conv :=
  { id := 1, userId := 7, title := "Nieuwe chat", mode := "chat", messages := [helloMsg] }

def wHello : World := { demoWorld with convs := [helloConv] }

/-- C8, counterexample: the fallback is the *stripped* 30-character preview,
not the literal first 30 characters — a message whose 30th character ends a
whitespace run loses that whitespace before the ellipsis is appended. -/
theorem title_fallback_strips_preview :
    pyLen padContent > 30 ∧
    (generateTitle envFail wPad 1 7).1 =
      .ok ("aaaaaaaaaaaaaaaaaaaaaaaaaaaaa" ++ "...") ∧
    (generateTitle envFail wPad 1 7).1 ≠ .ok (pyTake padContent 30 ++ "...") := by
  refine ⟨by decide, by decide, by decide⟩

/-- C8, amended: on LLM failure `generate_title` deterministically returns
(without raising) the whitespace-stripped 30-character preview of the first
user message, `"..."`-suffixed exactly when the message is longer than 30
characters, and the stripped message itself when not; the fixed default is
returned when no user message exists. -/
theorem title_fallback_formula (env : Env) (w : World) (cid uid : Nat)
    (conv : Conv) (e : String) (hc : getConversation w cid uid = some conv)
    (hne : conv.messages ≠ [])
    (he : env.llm [("user", titlePrompt (titleContext conv))] titleSystemPrompt =
      .error e) :
    generateTitle env w cid uid =
      (.ok (match List.find? (fun m => m.role == "user") conv.messages with
            | some m =>
              if pyLen m.content > 30 then pyStrip (pyTake m.content 30) ++ "..."
              else pyStrip (pyTake m.content 30)
            | none => "Nieuwe chat"), w) := by
  rw [(generateTitle_llm_cases env w cid uid conv hc hne).1 e he]
  unfold titleFallback
  cases List.find? (fun m => m.role == "user") conv.messages with
  | none => rfl
  | some m => by_cases h : pyLen m.content > 30 <;> simp [h]

/-- C8, witness: the spec scenario — a failing LLM and the long greeting
message yield the 30-character preview plus ellipsis. -/
theorem title_fallback_formula_witness :
    generateTitle envFail wHello 1 7 = (.ok "Hello there, this is a very lo...", wHello) := by
  have h := title_fallback_formula envFail wHello 1 7 helloConv
    "API timeout after 60s" (by decide) (by decide) (by decide)
  rw [h]
  decide

/-- C9, witness: with the failing LLM the padded store is returned
unchanged. -/
theorem title_fallback_not_persisted_witness :
    (generateTitle envFail wPad 1 7).2 = wPad := by
  rw [(title_fallback_not_persisted envFail wPad 1 7 padConv
      (by decide) (by decide)).1 "API timeout after 60s" (by decide)]

/-! ## C4 — the REMINDER branch -/

/-- C4: for a REMINDER command the handler never raises (every failure in
the branch is converted to an in-band message), and whenever the extraction
chain succeeds (LLM text, JSON object, `start_time` field, ISO parse,
`title` field) the event handed to the calendar adapter carries an end time
of exactly start + 5 minutes and the extracted title behind the fixed bell
prefix — appended to the store exactly when the adapter succeeds. -/
theorem reminder_end_time_and_bell_title (env : Env) (w : World)
    (conv : Conv) (cmd : ParsedCommand) (hk : cmd.commandType = .REMINDER) :
    (∃ s w', handleCommand env w cmd conv = (.ok s, w')) ∧
    (∀ txt eventData t s st,
      env.llm [("user", reminderExtractionPrompt cmd.originalText env.today)]
          calendarSystemPrompt = .ok txt →
      env.jsonLoads txt = .ok eventData →
      getReq eventData "start_time" = .ok s →
      env.fromIso (pyReplace s "Z" "+00:00") = .ok st →
      getReq eventData "title" = .ok t →
      (reminderReq conv eventData t st).endTime =
        (reminderReq conv eventData t st).startTime + 5 ∧
      (handleCommand env w cmd conv).2.events =
        w.events ++
          (match env.createEvent (reminderReq conv eventData t st) with
           | .ok _ => [reminderReq conv eventData t st]
           | .error _ => [])) := by
  have hcr : handleCommand env w cmd conv = handleReminder env w cmd conv := by
    unfold handleCommand
    rw [hk]
  constructor
  · rw [hcr]
    unfold handleReminder
    repeat' split
    all_goals exact ⟨_, _, rfl⟩
  · intro txt eventData t s st h1 h2 h3 h4 h5
    refine ⟨rfl, ?_⟩
    rw [hcr]
    unfold handleReminder
    simp only [h1, h2, h3, h4, h5]
    cases henv : env.createEvent (reminderReq conv eventData t st) with
    | error e => simp [henv]
    | ok ev => simp [henv]

def tandartsJson : String := "tandarts-json"

def reminderEnv : Env :=
  { llm := fun _ _ => .ok tandartsJson,
    llmChunks := [],
    jsonLoads := fun s =>
      if s == tandartsJson then
        .ok [("title", "Tandarts"), ("start_time", "2025-01-02T10:00:00")]
      else .error "Expecting value: line 1 column 1 (char 0)",
    fromIso := fun s =>
      if s == "2025-01-02T10:00:00" then .ok 28927800 else .error "Invalid isoformat string",
    createEvent := fun r => .ok r,
    systemPrompt := fun _ => "", today := "2025-01-01 09:00",
    fmtDateTime := fun _ => "02-01-2025 10:00", showDateTime := fun _ => "" }

def demoConv : Conv :=
  { id := 1, userId := 7, title := "Nieuwe chat", mode := "chat", messages := [] }

/-- C4, witness: the spec scenario — `"#reminder Tandarts morgen 10:00"`
with the mocked LLM yields one created event ending exactly 5 minutes after
its start, titled with the bell prefix. -/
theorem reminder_end_time_and_bell_title_witness :
    (handleCommand reminderEnv demoWorld
        (CommandParser.parse "#reminder Tandarts morgen 10:00") demoConv).2.events =
      [{ userId := 7, title := "🔔 Tandarts", startTime := 28927800,
         endTime := 28927805, description := none, location := none }] := by
  have h := (reminder_end_time_and_bell_title reminderEnv demoWorld demoConv
      (CommandParser.parse "#reminder Tandarts morgen 10:00") (by decide)).2
      tandartsJson [("title", "Tandarts"), ("start_time", "2025-01-02T10:00:00")]
      "Tandarts" "2025-01-02T10:00:00" 28927800
      rfl (by decide) (by decide) (by decide) (by decide)
  rw [h.2]
  decide

/-! ## C7 — streaming persistence discipline -/

/-- The accumulated assistant content: `full_response` after consuming the
given chunks. -/
def joinChunks : List String → String
  | [] => ""
  | c :: rest => c ++ joinChunks rest

/-- Interrupting the chat loop with at most as many pulls as there are
remaining chunks yields exactly those chunks and performs no write. -/
theorem runGen_chatLoop_short (env : Env) (cid : Nat) :
    ∀ (n : Nat) (rest : List String) (acc : String) (w : World),
      n ≤ rest.length →
      runGen env n (.chatLoop cid acc rest) w =
        { yielded := rest.take n, world := w, completed := false, err := none } := by
  intro n
  induction n with
  | zero => intro rest acc w _; rfl
  | succ m ih =>
    intro rest acc w hn
    cases rest with
    | nil => exact absurd hn (by simp)
    | cons c rs =>
      have hs : genStep env (.chatLoop cid acc (c :: rs)) w =
          (.ok (.yielded c (.chatLoop cid (acc ++ c) rs)), w) := rfl
      simp only [runGen, hs]
      rw [ih rs (acc ++ c) w (Nat.le_of_succ_le_succ hn)]
      simp [List.take_succ_cons]

/-- Driving the chat loop past its last chunk persists the assistant message
with the full accumulated content, exactly once, at generator exit. -/
theorem runGen_chatLoop_full (env : Env) (cid : Nat) :
    ∀ (n : Nat) (rest : List String) (acc : String) (w : World),
      rest.length < n →
      runGen env n (.chatLoop cid acc rest) w =
        { yielded := rest,
          world := (addMessage w cid "assistant" (acc ++ joinChunks rest) []).2,
          completed := true, err := none } := by
  intro n
  induction n with
  | zero => intro rest acc w hn; exact absurd hn (by simp)
  | succ m ih =>
    intro rest acc w hn
    cases rest with
    | nil =>
      have hs : genStep env (.chatLoop cid acc []) w =
          (.ok .stopped, (addMessage w cid "assistant" acc []).2) := rfl
      simp only [runGen, hs, joinChunks]
      rw [show acc ++ "" = acc from by
        cases acc with
        | mk d => show String.mk (d ++ []) = String.mk d; rw [List.append_nil]]
    | cons c rs =>
      have hs : genStep env (.chatLoop cid acc (c :: rs)) w =
          (.ok (.yielded c (.chatLoop cid (acc ++ c) rs)), w) := rfl
      simp only [runGen, hs]
      rw [ih rs (acc ++ c) w (Nat.lt_of_succ_lt_succ hn)]
      simp only [joinChunks, String.append_assoc]

/-- C7: on the non-command path of a streaming send, pulling at most as many
chunks as the LLM stream holds (a consumer disconnect) leaves exactly the
user message persisted — no assistant row — while driving the stream to
completion persists exactly one assistant message whose content is the
concatenation of every yielded chunk. -/
theorem stream_persists_only_on_completion (env : Env) (w : World)
    (cid uid : Nat) (content : String) (mode : Option String) (conv : Conv)
    (hc : getConversation w cid uid = some conv)
    (hnc : (CommandParser.parse content).isCommand = false) (n : Nat) :
    (1 ≤ n → n ≤ env.llmChunks.length →
      runGen env n (.begin cid uid content mode) w =
        { yielded := env.llmChunks.take n,
          world := (addMessage w cid "user" content
            (userMsgMeta (CommandParser.parse content))).2,
          completed := false, err := none }) ∧
    (env.llmChunks.length < n →
      runGen env n (.begin cid uid content mode) w =
        { yielded := env.llmChunks,
          world := (addMessage (addMessage w cid "user" content
              (userMsgMeta (CommandParser.parse content))).2 cid "assistant"
            (joinChunks env.llmChunks) []).2,
          completed := true, err := none }) := by
  have hreload : getConversation (addMessage w cid "user" content
      (userMsgMeta (CommandParser.parse content))).2 cid uid =
      some ((fun cv => if cv.id == cid then
          { cv with messages := cv.messages ++
              [{ role := "user", content := content,
                 meta := userMsgMeta (CommandParser.parse content) }] }
        else cv) conv) := by
    rw [getConversation_addMessage, hc]
    rfl
  have hstep : genStep env (.begin cid uid content mode) w =
      (match env.llmChunks with
       | [] => (.ok .stopped,
           (addMessage (addMessage w cid "user" content
             (userMsgMeta (CommandParser.parse content))).2 cid "assistant" "" []).2)
       | c :: rest => (.ok (.yielded c (.chatLoop cid c rest)),
           (addMessage w cid "user" content
             (userMsgMeta (CommandParser.parse content))).2)) := by
    simp only [genStep, hc, hreload, hnc]
    rfl
  constructor
  · intro h1 h2
    cases hch : env.llmChunks with
    | nil =>
      rw [hch] at h2
      simp at h2
      omega
    | cons c rest =>
      cases n with
      | zero => omega
      | succ m =>
        simp only [hch] at hstep h2 ⊢
        simp only [runGen, hstep]
        rw [runGen_chatLoop_short env cid m rest c _
          (Nat.le_of_succ_le_succ h2)]
        simp [List.take_succ_cons]
  · intro hlt
    cases hch : env.llmChunks with
    | nil =>
      cases n with
      | zero => rw [hch] at hlt; simp at hlt
      | succ m =>
        simp only [hch] at hstep ⊢
        simp only [runGen, hstep, joinChunks]
    | cons c rest =>
      cases n with
      | zero => rw [hch] at hlt; simp at hlt
      | succ m =>
        simp only [hch] at hstep hlt ⊢
        simp only [runGen, hstep]
        rw [runGen_chatLoop_full env cid m rest c _
          (Nat.lt_of_succ_lt_succ hlt)]
        simp [joinChunks]

/-- C7, witness: cancelling after one chunk of a two-chunk stream persists
only the user message; three pulls complete the stream and persist the
assembled assistant reply. -/
theorem stream_persists_only_on_completion_witness :
    runGen demoEnv 1 (.begin 1 7 "hoi" none) demoWorld =
      { yielded := ["Hel"],
        world := (addMessage demoWorld 1 "user" "hoi"
          (userMsgMeta (CommandParser.parse "hoi"))).2,
        completed := false, err := none } ∧
    runGen demoEnv 3 (.begin 1 7 "hoi" none) demoWorld =
      { yielded := ["Hel", "lo"],
        world := (addMessage (addMessage demoWorld 1 "user" "hoi"
            (userMsgMeta (CommandParser.parse "hoi"))).2 1 "assistant"
          (joinChunks ["Hel", "lo"]) []).2,
        completed := true, err := none } := by
  constructor
  · exact (stream_persists_only_on_completion demoEnv demoWorld 1 7 "hoi" none
      demoConv (by decide) (by decide) 1).1 (by decide) (by decide)
  · have h := (stream_persists_only_on_completion demoEnv demoWorld 1 7 "hoi" none
      demoConv (by decide) (by decide) 3).2 (by decide)
    rw [h]
    rfl
